import Mathlib

/- Shallow embedding of the falgates staff check-in system.
   Sources embedded:
   - src/services/geminiService.ts (quality gate, pairwise verification, consensus)
   - DEPLOYMENT.md second document = services/faceplusplus.ts (indexed search backend)
   - src/pages/Kiosk.tsx (indexed-search kiosk orchestrator)
   - src/unnamed/part_005 (pairwise consensus kiosk orchestrator)
   - src/unnamed/part_004 second document = pages/Enrollment.tsx (capture session)
   - src/unnamed/part_001 / part_002 (getNextId staff id allocator)
   Asynchronous oracle calls are modelled as values or as explicitly passed
   functions; a thrown exception is modelled as Except.error; confidences are
   rationals (the JS numbers in play are small decimals). -/

namespace Falgates

/-- Result shape of the quality oracle, geminiService.ts checkImageQuality. -/
structure QualityResult where
  valid : Bool
  reason : String
deriving DecidableEq

/-- Result shape of the pairwise comparison oracle, geminiService.ts
verifyIdentityWithGemini.  The source field `match` is a Lean keyword, so it
is called `matched` here. -/
structure VerifyResult where
  matched : Bool
  confidence : ℚ
  explanation : String
deriving DecidableEq

/-- geminiService.ts `parseJSON` helper: strips markdown code fences and trims,
then attempts a JSON parse.  `JSON.parse` composed with the response schema is
abstracted as `decode`; `none` input models an `undefined` response text, and
the empty string is also rejected by the `if (!text) return null` guard. -/
def cleanText (t : String) : String :=
  ((t.replace "```json" "").replace "```" "").trim

/-- parseJSON from geminiService.ts.  Returns `none` exactly when the response
text is absent, empty, or fails to decode. -/
def parseJSON {α : Type} (decode : String → Option α) : Option String → Option α
  | none => none
  | some t => if t = "" then none else decode (cleanText t)

/-- checkImageQuality from geminiService.ts.  The whole oracle interaction
(getClient + generateContent) is the `call` argument: `Except.error` is a
thrown exception (network/auth), `Except.ok text` is a response with the given
text.  The function is total: no exception propagates to the caller. -/
def checkImageQuality (decode : String → Option QualityResult)
    (call : Except String (Option String)) : QualityResult :=
  match call with
  | .error _ => ⟨true, "AI Check Skipped (Network/API Error)"⟩
  | .ok text =>
    match parseJSON decode text with
    | some result => result
    | none => ⟨true, "AI Check Skipped (Parse Error)"⟩

/-- verifyIdentityWithGemini from geminiService.ts: pairwise comparison,
failing closed on exceptions and on unreadable responses. -/
def verifyIdentityWithGemini (decode : String → Option VerifyResult)
    (call : Except String (Option String)) : VerifyResult :=
  match call with
  | .error _ => ⟨false, 0, "AI Service Unavailable"⟩
  | .ok text =>
    match parseJSON decode text with
    | some result => result
    | none => ⟨false, 0, "Verification Failed (Parse Error)"⟩

/-- Aggregate outcome of verifyIdentityWithConsensus.  The diagnostic
explanation string built by the source is not needed by any claim and is
omitted from the record. -/
structure ConsensusResult where
  matched : Bool
  confidence : ℚ
  matchCount : ℕ
deriving DecidableEq

/-- The filter predicate of verifyIdentityWithConsensus:
`r.match && r.confidence >= confidenceThreshold`. -/
def qualifies (confidenceThreshold : ℚ) (r : VerifyResult) : Bool :=
  r.matched && decide (confidenceThreshold ≤ r.confidence)

/-- Arithmetic mean, as computed by the source via reduce-sum divided by
length. -/
def mean (xs : List ℚ) : ℚ := xs.sum / xs.length

/-- verifyIdentityWithConsensus from geminiService.ts.  The per-reference
remote call `verifyIdentityWithGemini(liveImageBase64, refImage)` is
abstracted as `compare refImage` (the probe is fixed inside `compare`); the
sequential await-loop over `referenceImages` is the map. -/
def verifyIdentityWithConsensus {Img : Type} (compare : Img → VerifyResult)
    (referenceImages : List Img) (requiredMatches : ℕ) (confidenceThreshold : ℚ) :
    ConsensusResult :=
  if referenceImages.isEmpty then ⟨false, 0, 0⟩
  else
    let results := referenceImages.map compare
    let validMatches := results.filter (qualifies confidenceThreshold)
    let matchCount := validMatches.length
    let avgConfidence :=
      if 0 < validMatches.length then mean (validMatches.map (·.confidence))
      else mean (results.map (·.confidence))
    ⟨decide (requiredMatches ≤ matchCount), avgConfidence, matchCount⟩

/-- StaffMember from types.ts, with the optional Face++ `faceToken` that the
updated types document (src/unnamed/part_001) adds.  `assignedUnit` is one of
the DistributionUnit enumeration strings; `faceEmbedding` (a mocked, unused
vector) is omitted — no matching logic reads it. -/
structure StaffMember where
  id : String
  fullName : String
  assignedUnit : String
  registeredAt : ℕ
  faceToken : Option String
  referenceImageBase64 : String
deriving DecidableEq

/-- One angle-tagged enrollment photo (StaffImage in types). -/
structure StaffImage where
  imageBase64 : String
  angleType : String
deriving DecidableEq

/-- CheckInLog from types.ts (the DB-assigned auto-increment id is omitted). -/
structure CheckInLog where
  staffId : String
  staffName : String
  assignedUnit : String
  timestamp : ℕ
  confidenceScore : ℚ
deriving DecidableEq

/-- RecognitionResult from types.ts. -/
structure RecognitionResult where
  isMatch : Bool
  confidence : ℚ
  staffMember : Option StaffMember
  message : String
deriving DecidableEq

/-- One ranked hit returned by faceplusplus.ts searchFace. -/
structure SearchMatch where
  faceToken : String
  confidence : ℚ
  userId : Option String
deriving DecidableEq

/-- The named operating-point thresholds of the Face++ search response:
fields `1e-3`, `1e-4`, `1e-5` (a lower false-accept rate is a stricter,
higher cutoff). -/
structure SearchThresholds where
  thr1e3 : ℚ
  thr1e4 : ℚ
  thr1e5 : ℚ
deriving DecidableEq

/-- SearchResult shape of faceplusplus.ts searchFace.  The source field
`matches` is a Lean keyword, so it is called `matchList` here. -/
structure SearchResult where
  success : Bool
  matchList : List SearchMatch
  thresholds : Option SearchThresholds
  error : Option String
deriving DecidableEq

/-- The four observable kiosk modes of both Kiosk variants. -/
inductive KioskMode where
  | IDLE
  | SCANNING
  | SUCCESS
  | FAILURE
deriving DecidableEq

/-- Kiosk.tsx line 59: `searchResult.thresholds?.['1e-3'] || 65` — the 1e-3
operating point when thresholds are present (with JS `||` sending a zero
threshold to 65 as well), else 65. -/
def faceppThreshold (thresholds : Option SearchThresholds) : ℚ :=
  match thresholds with
  | some t => if t.thr1e3 = 0 then 65 else t.thr1e3
  | none => 65

/-- Kiosk.tsx lines 63-66: resolve the top hit to an enrolled staff member by
recognition token or staff id (`s.faceToken === topMatch.faceToken ||
s.id === topMatch.userId`; an absent optional never equals a present string). -/
def resolveStaff (staffList : List StaffMember) (topMatch : SearchMatch) :
    Option StaffMember :=
  staffList.find? fun s =>
    decide (s.faceToken = some topMatch.faceToken) || decide (topMatch.userId = some s.id)

/-- Kiosk.tsx lines 54-77: the indexed decision on a search result — top hit,
1e-3 threshold, staff resolution.  `none` when no match is accepted.  The JS
`toFixed(1)` display formatting inside the message is abstracted as toString. -/
def kioskSearchDecision (staffList : List StaffMember) (searchResult : SearchResult) :
    Option RecognitionResult :=
  if searchResult.success then
    match searchResult.matchList with
    | [] => none
    | topMatch :: _ =>
      if faceppThreshold searchResult.thresholds ≤ topMatch.confidence then
        match resolveStaff staffList topMatch with
        | some matchedStaff =>
          some ⟨true, topMatch.confidence, some matchedStaff,
            "Face++ match: " ++ toString topMatch.confidence ++ "% confidence"⟩
        | none => none
      else none
  else none

/-- The two failure messages of Kiosk.tsx lines 98-104. -/
def kioskIndexedFailureMessage (faceppAvailable : Bool) : String :=
  if faceppAvailable then "Face not recognized. Please ensure you are registered."
  else "Face++ not configured. Please set up API credentials in Settings."

/-- handleLiveCapture of src/pages/Kiosk.tsx (the indexed-search kiosk).
`search` is the deferred `searchFace(liveImage)` oracle call, invoked only
inside the `if (faceppAvailable)` branch; `now` is Date.now(); `log` is the
check-in store, with dbService.logCheckIn modelled as an append.  Returns the
resolution mode, the displayed result, and the new check-in log.  The deferred
timer that later resets the mode to IDLE is outside the resolution and not
modelled. -/
def kioskIndexedCapture (staffList : List StaffMember) (faceppAvailable : Bool)
    (search : Unit → SearchResult) (now : ℕ) (mode : KioskMode)
    (log : List CheckInLog) :
    KioskMode × Option RecognitionResult × List CheckInLog :=
  if mode = KioskMode.SCANNING then (mode, none, log)
  else if staffList.isEmpty then
    (KioskMode.FAILURE, some ⟨false, 0, none, "No staff database found."⟩, log)
  else
    let foundMatch :=
      if faceppAvailable then kioskSearchDecision staffList (search ()) else none
    match foundMatch with
    | some fm =>
      match fm.staffMember with
      | some staff =>
        (KioskMode.SUCCESS, some fm,
          log ++ [⟨staff.id, staff.fullName, staff.assignedUnit, now, fm.confidence⟩])
      | none =>
        (KioskMode.FAILURE,
          some ⟨false, 0, none, kioskIndexedFailureMessage faceppAvailable⟩, log)
    | none =>
      (KioskMode.FAILURE,
        some ⟨false, 0, none, kioskIndexedFailureMessage faceppAvailable⟩, log)

/-- A staff member together with the loaded multi-angle images
(StaffWithImages of src/unnamed/part_005). -/
structure StaffWithImages extends StaffMember where
  images : List StaffImage
deriving DecidableEq

/-- part_005 lines 61-63: the candidate's reference set is the multi-angle
images when present, else the single primary reference image. -/
def referenceImagesOf (staff : StaffWithImages) : List String :=
  if 0 < staff.images.length then staff.images.map (·.imageBase64)
  else [staff.referenceImageBase64]

/-- part_005 line 67: `referenceImages.length >= 3 ? 2 : 1`. -/
def requiredMatchesFor (referenceImages : List String) : ℕ :=
  if 3 ≤ referenceImages.length then 2 else 1

/-- The per-candidate consensus decision run by the pairwise kiosk
(part_005 lines 59-75): default policy on requiredMatches, fixed
confidence threshold 85.  `compare ref` is the oracle comparison of the fixed
probe against the reference image `ref`. -/
def candidateDecision (compare : String → VerifyResult) (staff : StaffWithImages) :
    ConsensusResult :=
  let referenceImages := referenceImagesOf staff
  verifyIdentityWithConsensus compare referenceImages
    (requiredMatchesFor referenceImages) 85

/-- The candidate loop of part_005 lines 59-86, with break on the first
accepted candidate.  Also returns the trace of candidate ids for which the
consensus engine was invoked, in order. -/
def scanCandidates (compare : String → VerifyResult) :
    List StaffWithImages → Option (StaffWithImages × ConsensusResult) × List String
  | [] => (none, [])
  | staff :: rest =>
    let verify := candidateDecision compare staff
    if verify.matched then (some (staff, verify), [staff.id])
    else
      let next := scanCandidates compare rest
      (next.1, staff.id :: next.2)

/-- handleLiveCapture of src/unnamed/part_005 (the pairwise consensus kiosk):
re-entrancy guard, no-staff failure, candidate loop with early exit, check-in
append on success.  The success message is the consensus explanation string,
abstracted here since ConsensusResult omits it. -/
def kioskPairwiseCapture (staffList : List StaffWithImages)
    (compare : String → VerifyResult) (now : ℕ) (mode : KioskMode)
    (log : List CheckInLog) :
    KioskMode × Option RecognitionResult × List CheckInLog :=
  if mode = KioskMode.SCANNING then (mode, none, log)
  else if staffList.isEmpty then
    (KioskMode.FAILURE, some ⟨false, 0, none, "No staff database found."⟩, log)
  else
    match (scanCandidates compare staffList).1 with
    | some (staff, verify) =>
      (KioskMode.SUCCESS,
        some ⟨true, verify.confidence, some staff.toStaffMember, "consensus explanation"⟩,
        log ++ [⟨staff.id, staff.fullName, staff.assignedUnit, now, verify.confidence⟩])
    | none =>
      (KioskMode.FAILURE,
        some ⟨false, 0, none,
          "Identity could not be verified. Please ensure you are registered and try in better lighting."⟩,
        log)

/-- The three configured capture angles (ImageAngleType in types). -/
inductive ImageAngleType where
  | front
  | left
  | right
deriving DecidableEq

/-- PHOTO_ANGLES of the Enrollment page (src/unnamed/part_004 second
document): the fixed capture order front, left, right. -/
def PHOTO_ANGLES : List ImageAngleType :=
  [ImageAngleType.front, ImageAngleType.left, ImageAngleType.right]

/-- CapturedPhoto of the Enrollment page. -/
structure CapturedPhoto where
  imageBase64 : String
  angleType : ImageAngleType
  isValid : Bool
  reason : String
deriving DecidableEq

/-- allPhotosValid, Enrollment lines 183-185: every configured angle has some
stored photo with that angle and isValid. -/
def allPhotosValid (capturedPhotos : List CapturedPhoto) : Bool :=
  PHOTO_ANGLES.all fun angle =>
    capturedPhotos.any fun p => decide (p.angleType = angle) && p.isValid

/-- handleRetake, Enrollment lines 213-215: drops exactly the current angle's
stored photo. -/
def handleRetake (currentAngle : ImageAngleType)
    (capturedPhotos : List CapturedPhoto) : List CapturedPhoto :=
  capturedPhotos.filter fun p => decide (p.angleType ≠ currentAngle)

/-- The setCapturedPhotos update of handleCapture, Enrollment lines 200-203:
replace any existing photo for the current angle with the new one. -/
def storeCapture (currentAngle : ImageAngleType) (newPhoto : CapturedPhoto)
    (prev : List CapturedPhoto) : List CapturedPhoto :=
  (prev.filter fun p => decide (p.angleType ≠ currentAngle)) ++ [newPhoto]

/-- Enrollment line 256: the allocated id is ready once it is neither the
placeholder nor the error marker. -/
def isIdReady (id : String) : Bool :=
  decide (id ≠ "Generating...") && decide (id ≠ "ERROR")

/-- JS String.prototype.trim on a character list: drop whitespace from both
ends. -/
def trimChars (cs : List Char) : List Char :=
  ((cs.dropWhile Char.isWhitespace).reverse.dropWhile Char.isWhitespace).reverse

/-- Enrollment line 257: non-empty trimmed staff name
(`formData.fullName.trim().length > 0`). -/
def isNameReady (fullName : String) : Bool :=
  decide (0 < (trimChars fullName.data).length)

/-- canSubmit, Enrollment line 258: the finalize button gate. -/
def canSubmit (id fullName : String) (capturedPhotos : List CapturedPhoto)
    (isSaving : Bool) : Bool :=
  isIdReady id && isNameReady fullName && allPhotosValid capturedPhotos && !isSaving

/-- `id.replace(/[^0-9]/g, '')` of getNextId. -/
def stripNonDigits (s : String) : String :=
  String.mk (s.data.filter Char.isDigit)

/-- Decimal value of an all-digit character list, most significant first. -/
def digitsVal (ds : List Char) : ℕ :=
  ds.foldl (fun n c => 10 * n + (c.toNat - 48)) 0

/-- `parseInt(numStr, 10)` applied to the digit-stripped id: NaN (`none`)
exactly when no digits remain, else the decimal value. -/
def parsedNum (id : String) : Option ℕ :=
  let ds := (stripNonDigits id).data
  if ds.isEmpty then none else some (digitsVal ds)

/-- JS String.prototype.padStart. -/
def padStart (s : String) (targetLength : ℕ) (padChar : Char) : String :=
  String.mk (List.replicate (targetLength - s.length) padChar) ++ s

/-- getNextId, identical in SupabaseDatabase (src/unnamed/part_001 lines
419-439) and LocalDatabase (src/unnamed/part_002 lines 81-94): over the
existing staff ids, strip non-digits, parse, ignore NaN, fold max from 0, add
one, zero-pad to 4, prefix FG; empty id set short-circuits to FG0001. -/
def getNextId (existingIds : List String) : String :=
  if existingIds.isEmpty then "FG0001"
  else
    let maxNum := existingIds.foldl
      (fun mx id =>
        match parsedNum id with
        | none => mx
        | some num => max mx num) 0
    "FG" ++ padStart (toString (maxNum + 1)) 4 '0'

/-- Index of the first candidate in iteration order whose consensus decision
is accepted (the list length when none is). -/
def firstMatchIdx (compare : String → VerifyResult) (l : List StaffWithImages) : ℕ :=
  l.findIdx fun s => (candidateDecision compare s).matched

/-- Stated from the spec's words, for comparison with the code (claim C2):
"the oracle's strictest available operating-point threshold (prefer the
lowest false-accept-rate point offered)" — of the three points the search
response offers, the lowest false-accept rate is 1e-5. -/
def specStrictestThreshold (t : SearchThresholds) : ℚ := t.thr1e5

/-- Concrete fixture: an enrolled staff member carrying a Face++ token. -/
def sampleStaff : StaffMember :=
  ⟨"FG0001", "Ada", "PLATFORM_A", 0, some "tokX", "img"⟩

/-- Concrete fixture: a search response whose top hit has confidence 72,
with operating points 1e-3 ↦ 70, 1e-4 ↦ 75, 1e-5 ↦ 80. -/
def sampleSearch : SearchResult :=
  ⟨true, [⟨"tokX", 72, none⟩], some ⟨70, 75, 80⟩, none⟩

/-- Concrete fixture: a search response whose top hit would be accepted at
every operating point. -/
def sampleStrongSearch : SearchResult :=
  ⟨true, [⟨"tokX", 99, none⟩], some ⟨70, 75, 80⟩, none⟩

/-- Concrete fixture: first enrolled candidate with one reference image. -/
def wStaff1 : StaffWithImages :=
  ⟨⟨"FG0001", "Ada", "PLATFORM_A", 0, none, "p1"⟩, [⟨"i1", "front"⟩]⟩

/-- Concrete fixture: second enrolled candidate with one reference image. -/
def wStaff2 : StaffWithImages :=
  ⟨⟨"FG0002", "Bob", "PLATFORM_B", 0, none, "p2"⟩, [⟨"i2", "front"⟩]⟩

/-- Concrete fixture: a pairwise oracle that matches every reference with
confidence 90. -/
def wCompare : String → VerifyResult := fun _ => ⟨true, 90, "strong match"⟩

/-- Concrete fixture: a complete, all-valid capture set for the three
configured angles. -/
def samplePhotos : List CapturedPhoto :=
  [⟨"f", ImageAngleType.front, true, "ok"⟩,
   ⟨"l", ImageAngleType.left, true, "ok"⟩,
   ⟨"r", ImageAngleType.right, true, "ok"⟩]


/-- C6: on an oracle exception the quality gate fails open. -/
theorem quality_gate_fails_open (decode : String → Option QualityResult) (err : String) :
    checkImageQuality decode (Except.error err) =
      ⟨true, "AI Check Skipped (Network/API Error)"⟩ := rfl

/-- C10: parse failure behaviour. -/
theorem parse_error_gate_open_verify_closed
    (decodeQ : String → Option QualityResult) (decodeV : String → Option VerifyResult)
    (text : Option String)
    (hq : parseJSON decodeQ text = none) (hv : parseJSON decodeV text = none) :
    checkImageQuality decodeQ (Except.ok text) = ⟨true, "AI Check Skipped (Parse Error)"⟩ ∧
    verifyIdentityWithGemini decodeV (Except.ok text) =
      ⟨false, 0, "Verification Failed (Parse Error)"⟩ := by
  constructor <;> simp only [checkImageQuality, verifyIdentityWithGemini, hq, hv]

/-- C10 witness. -/
theorem parse_error_gate_open_verify_closed_witness :
    parseJSON (fun _ => (none : Option QualityResult)) (some "not json") = none ∧
    checkImageQuality (fun _ => none) (Except.ok (some "not json")) =
      ⟨true, "AI Check Skipped (Parse Error)"⟩ ∧
    verifyIdentityWithGemini (fun _ => none) (Except.ok (some "not json")) =
      ⟨false, 0, "Verification Failed (Parse Error)"⟩ := by
  have h := parse_error_gate_open_verify_closed (fun _ => none) (fun _ => none)
    (some "not json") (by decide) (by decide)
  exact ⟨by decide, h.1, h.2⟩

/-- helper for C9. -/
theorem foldl_max_parsedNum (ids : List String) (a : ℕ) :
    ids.foldl
        (fun mx id =>
          match parsedNum id with
          | none => mx
          | some num => max mx num) a
      = (ids.filterMap parsedNum).foldl max a := by
  induction ids generalizing a with
  | nil => rfl
  | cons x xs ih =>
    rw [List.foldl_cons, List.filterMap_cons]
    cases h : parsedNum x with
    | none => simp only [h]; exact ih a
    | some n => simp only [h, List.foldl_cons]; exact ih (max a n)

/-- C9: staff id allocation. -/
theorem next_id_allocation :
    getNextId [] = "FG0001" ∧
    getNextId ["FG0001", "FG0007", "FG0003"] = "FG0008" ∧
    getNextId ["AB12", "garbage"] = "FG0013" ∧
    ∀ ids : List String, ids ≠ [] →
      getNextId ids =
        "FG" ++ padStart (toString ((ids.filterMap parsedNum).foldl max 0 + 1)) 4 '0' := by
  refine ⟨by decide, by decide, by decide, ?_⟩
  intro ids h
  have hE : ids.isEmpty = false := by
    cases ids with
    | nil => exact absurd rfl h
    | cons a l => rfl
  rw [getNextId, hE]
  simp only [Bool.false_eq_true, if_false]
  rw [foldl_max_parsedNum]

/-- C9 witness. -/
theorem next_id_allocation_witness :
    (["FG0009"] : List String) ≠ [] ∧
    getNextId ["FG0009"] =
      "FG" ++ padStart (toString (((["FG0009"] : List String).filterMap parsedNum).foldl max 0 + 1)) 4 '0' :=
  ⟨by decide, next_id_allocation.2.2.2 ["FG0009"] (by decide)⟩

/-- C1: pairwise consensus decision. -/
theorem consensus_pairwise_decision {Img : Type} (compare : Img → VerifyResult)
    (referenceImages : List Img) (requiredMatches : ℕ) (confidenceThreshold : ℚ)
    (hne : referenceImages ≠ []) :
    (verifyIdentityWithConsensus compare referenceImages requiredMatches confidenceThreshold).matchCount
        = (referenceImages.map compare).countP
            (fun r => r.matched && decide (confidenceThreshold ≤ r.confidence)) ∧
    ((verifyIdentityWithConsensus compare referenceImages requiredMatches confidenceThreshold).matched = true
        ↔ requiredMatches ≤ (referenceImages.map compare).countP
            (fun r => r.matched && decide (confidenceThreshold ≤ r.confidence))) ∧
    (verifyIdentityWithConsensus compare referenceImages requiredMatches confidenceThreshold).confidence
        = if (referenceImages.map compare).filter (qualifies confidenceThreshold) = []
          then mean ((referenceImages.map compare).map (·.confidence))
          else mean (((referenceImages.map compare).filter (qualifies confidenceThreshold)).map (·.confidence)) := by
  have hE : referenceImages.isEmpty = false := by
    cases referenceImages with
    | nil => exact absurd rfl hne
    | cons a l => rfl
  unfold verifyIdentityWithConsensus
  rw [hE]
  simp only [Bool.false_eq_true, if_false]
  rw [List.countP_eq_length_filter]
  refine ⟨rfl, decide_eq_true_iff, ?_⟩
  by_cases h : (referenceImages.map compare).filter (qualifies confidenceThreshold) = []
  · rw [if_pos h, h]
    simp
  · rw [if_neg h, if_pos (List.length_pos.mpr h)]



/-- C1 witness. -/
theorem consensus_pairwise_decision_witness :
    ([⟨true, 90, "a"⟩, ⟨false, 60, "b"⟩, ⟨true, 88, "c"⟩] : List VerifyResult) ≠ [] ∧
    (verifyIdentityWithConsensus (id : VerifyResult → VerifyResult)
      [⟨true, 90, "a"⟩, ⟨false, 60, "b"⟩, ⟨true, 88, "c"⟩] 2 85).matched = true ∧
    (verifyIdentityWithConsensus (id : VerifyResult → VerifyResult)
      [⟨true, 90, "a"⟩, ⟨false, 60, "b"⟩, ⟨true, 88, "c"⟩] 2 85).confidence = 89 ∧
    (verifyIdentityWithConsensus (id : VerifyResult → VerifyResult)
      [⟨true, 90, "a"⟩, ⟨false, 60, "b"⟩, ⟨true, 88, "c"⟩] 2 85).matchCount = 2 := by
  have h := consensus_pairwise_decision (id : VerifyResult → VerifyResult)
    [⟨true, 90, "a"⟩, ⟨false, 60, "b"⟩, ⟨true, 88, "c"⟩] 2 85 (by decide)
  refine ⟨by decide, h.2.1.mpr (by decide), ?_, h.1.trans (by decide)⟩
  rw [h.2.2]
  norm_num [mean, qualifies]
  decide

/-- C7: the verification flow's default consensus policy — requiredMatches is
2 with three or more reference photos and 1 otherwise, and a candidate with a
single reference photo is accepted on one qualifying result alone. -/
theorem default_consensus_policy (compare : String → VerifyResult)
    (staff : StaffWithImages) :
    (3 ≤ (referenceImagesOf staff).length →
      requiredMatchesFor (referenceImagesOf staff) = 2) ∧
    ((referenceImagesOf staff).length < 3 →
      requiredMatchesFor (referenceImagesOf staff) = 1) ∧
    (∀ img : StaffImage, staff.images = [img] →
      (compare img.imageBase64).matched = true →
      85 ≤ (compare img.imageBase64).confidence →
      (candidateDecision compare staff).matched = true) := by
  refine ⟨fun h => ?_, fun h => ?_, fun img himg hm hc => ?_⟩
  · simp [requiredMatchesFor, h]
  · simp [requiredMatchesFor, Nat.not_le.mpr h]
  · have hrefs : referenceImagesOf staff = [img.imageBase64] := by
      simp [referenceImagesOf, himg]
    simp [candidateDecision, hrefs, requiredMatchesFor, verifyIdentityWithConsensus,
      qualifies, hm, hc]

/-- C7 witness: a single-reference candidate and one qualifying oracle result
produce an accepted decision. -/
theorem default_consensus_policy_witness :
    wStaff1.images = [⟨"i1", "front"⟩] ∧
    (wCompare "i1").matched = true ∧
    (85 : ℚ) ≤ (wCompare "i1").confidence ∧
    (candidateDecision wCompare wStaff1).matched = true := by
  have h := default_consensus_policy wCompare wStaff1
  exact ⟨rfl, rfl, by norm_num [wCompare],
    h.2.2 ⟨"i1", "front"⟩ rfl rfl (by norm_num [wCompare])⟩

/-- C8 counterexample: the three configured angles all hold valid photos, yet
finalize (canSubmit) is disabled because the staff name is still empty — the
claimed "enabled iff every angle has a valid photo" fails as stated. -/
theorem finalize_gating_counterexample :
    allPhotosValid samplePhotos = true ∧
    canSubmit "FG0001" "" samplePhotos false = false := by decide

/-- C8 amended: finalize additionally requires an allocated id, a non-empty
name and no save in progress; holding those, it is enabled iff every
configured angle has a valid photo; a retake removes exactly the current
angle's photo and disables finalize until that angle is recaptured valid. -/
theorem finalize_gating (id fullName : String) (photos : List CapturedPhoto)
    (isSaving : Bool) (angle : ImageAngleType) :
    (canSubmit id fullName photos isSaving = true → allPhotosValid photos = true) ∧
    (isIdReady id = true → isNameReady fullName = true → isSaving = false →
      canSubmit id fullName photos isSaving = allPhotosValid photos) ∧
    (∀ p : CapturedPhoto, p ∈ handleRetake angle photos ↔
      p ∈ photos ∧ p.angleType ≠ angle) ∧
    (angle ∈ PHOTO_ANGLES → allPhotosValid (handleRetake angle photos) = false) ∧
    (angle ∈ PHOTO_ANGLES →
      canSubmit id fullName (handleRetake angle photos) isSaving = false) ∧
    (∀ newPhoto : CapturedPhoto, allPhotosValid photos = true →
      newPhoto.angleType = angle → newPhoto.isValid = true →
      allPhotosValid (storeCapture angle newPhoto (handleRetake angle photos)) = true) := by
  have hmem : ∀ p : CapturedPhoto, p ∈ handleRetake angle photos ↔
      p ∈ photos ∧ p.angleType ≠ angle := by
    intro p
    simp [handleRetake, List.mem_filter]
  have hinvalid : angle ∈ PHOTO_ANGLES → allPhotosValid (handleRetake angle photos) = false := by
    intro ha
    cases hv : allPhotosValid (handleRetake angle photos) with
    | false => rfl
    | true =>
      exfalso
      rw [allPhotosValid, List.all_eq_true] at hv
      obtain ⟨p, hp, hcond⟩ := List.any_eq_true.mp (hv angle ha)
      have hpa : p.angleType = angle := by
        simp only [Bool.and_eq_true, decide_eq_true_eq] at hcond
        exact hcond.1
      exact ((hmem p).mp hp).2 hpa
  refine ⟨fun h => ?_, fun h1 h2 h3 => ?_, hmem, hinvalid, fun ha => ?_, ?_⟩
  · simp only [canSubmit, Bool.and_eq_true] at h
    exact h.1.2
  · simp [canSubmit, h1, h2, h3]
  · simp [canSubmit, hinvalid ha]
  · intro newPhoto hall hangle hvalid
    rw [allPhotosValid, List.all_eq_true]
    intro a ha
    rw [List.any_eq_true]
    by_cases hcase : a = angle
    · refine ⟨newPhoto, by simp [storeCapture, List.mem_append], ?_⟩
      simp [hangle, hcase, hvalid]
    · rw [allPhotosValid, List.all_eq_true] at hall
      obtain ⟨p, hp, hcond⟩ := List.any_eq_true.mp (hall a ha)
      refine ⟨p, ?_, hcond⟩
      have hpa : p.angleType = a := by
        simp only [Bool.and_eq_true, decide_eq_true_eq] at hcond
        exact hcond.1
      simp [storeCapture, handleRetake, List.mem_append, List.mem_filter, hp, hpa, hcase]

/-- C8 amended witness: a concrete complete capture set with name and id
ready, with a retake of the front angle disabling finalize. -/
theorem finalize_gating_witness :
    isIdReady "FG0001" = true ∧ isNameReady "Ada" = true ∧
    canSubmit "FG0001" "Ada" samplePhotos false = allPhotosValid samplePhotos ∧
    allPhotosValid (handleRetake ImageAngleType.front samplePhotos) = false := by
  have h := finalize_gating "FG0001" "Ada" samplePhotos false ImageAngleType.front
  exact ⟨by decide, by decide, h.2.1 (by decide) (by decide) rfl,
    h.2.2.2.1 (by decide)⟩

/-- Helper: an accepted indexed decision always carries a resolved staff
member. -/
theorem kioskSearchDecision_some (staffList : List StaffMember)
    (sr : SearchResult) (fm : RecognitionResult)
    (h : kioskSearchDecision staffList sr = some fm) :
    fm.isMatch = true ∧ ∃ staff : StaffMember, fm.staffMember = some staff := by
  unfold kioskSearchDecision at h
  split at h
  · split at h
    next => exact Option.noConfusion h
    next topMatch rest =>
      split at h
      · split at h
        next staff heq =>
          cases h
          exact ⟨rfl, staff, rfl⟩
        next => exact Option.noConfusion h
      · exact Option.noConfusion h
  · exact Option.noConfusion h

/-- C2 counterexample: thresholds 1e-3 ↦ 70, 1e-4 ↦ 75, 1e-5 ↦ 80 and a top
hit of confidence 72 that resolves to an enrolled staff member: the code
accepts the hit (72 is at the 1e-3 point 70) although 72 is strictly below
the strictest available operating point 80 — so the decision is not
"confidence at or above the strictest available operating-point threshold". -/
theorem indexed_threshold_counterexample :
    sampleSearch.matchList = [⟨"tokX", 72, none⟩] ∧
    sampleSearch.thresholds = some ⟨70, 75, 80⟩ ∧
    (kioskSearchDecision [sampleStaff] sampleSearch).map (fun r => r.isMatch) = some true ∧
    ¬ specStrictestThreshold ⟨70, 75, 80⟩ ≤ 72 := by
  refine ⟨rfl, rfl, by decide, by decide⟩

/-- C2 amended: for a successful search with a top-ranked hit, the kiosk
accepts iff the hit's confidence is at or above the 1e-3 operating point
offered by the oracle — the highest false-accept-rate point, not the
strictest; 65 when thresholds are absent (or the point is zero) — and the
hit resolves to an enrolled candidate by recognition token or staff id. -/
theorem indexed_threshold_decision (staffList : List StaffMember)
    (sr : SearchResult) (topMatch : SearchMatch) (rest : List SearchMatch)
    (hs : sr.success = true) (hm : sr.matchList = topMatch :: rest) :
    ((kioskSearchDecision staffList sr).map (fun r => r.isMatch) = some true ↔
      faceppThreshold sr.thresholds ≤ topMatch.confidence ∧
        (resolveStaff staffList topMatch).isSome = true) ∧
    (∀ fm : RecognitionResult, kioskSearchDecision staffList sr = some fm →
      fm.isMatch = true ∧ fm.confidence = topMatch.confidence ∧
      ∃ staff : StaffMember, fm.staffMember = some staff ∧
        (staff.faceToken = some topMatch.faceToken ∨ topMatch.userId = some staff.id)) := by
  unfold kioskSearchDecision
  rw [hs, hm]
  simp only [if_true]
  by_cases hth : faceppThreshold sr.thresholds ≤ topMatch.confidence
  · rw [if_pos hth]
    cases hr : resolveStaff staffList topMatch with
    | none => simp [hr, hth]
    | some staff =>
      have hprop := List.find?_some hr
      simp only [Bool.or_eq_true, decide_eq_true_eq] at hprop
      constructor
      · simp [hth, hr]
      · intro fm hfm
        cases hfm
        exact ⟨rfl, rfl, staff, rfl, hprop⟩
  · rw [if_neg hth]
    simp [hth]

/-- C2 witness: a top hit at confidence 99 with the 1e-3 point at 70 and a
token-resolving staff member is accepted. -/
theorem indexed_threshold_decision_witness :
    sampleStrongSearch.success = true ∧
    sampleStrongSearch.matchList = [⟨"tokX", 99, none⟩] ∧
    (kioskSearchDecision [sampleStaff] sampleStrongSearch).map (fun r => r.isMatch) = some true := by
  have h := indexed_threshold_decision [sampleStaff] sampleStrongSearch
    ⟨"tokX", 99, none⟩ [] rfl rfl
  exact ⟨rfl, rfl, h.1.mpr ⟨by decide, by decide⟩⟩


/-- C3 counterexample: one staff member enrolled, no collection handle
(faceppAvailable = false), and a search oracle that would accept the probe —
the orchestrator of src/pages/Kiosk.tsx resolves Failure with the
configuration message instead of evaluating the candidate pairwise. -/
theorem backend_selection_counterexample :
    kioskIndexedCapture [sampleStaff] false (fun _ => sampleStrongSearch) 5
        KioskMode.IDLE [] =
      (KioskMode.FAILURE,
        some ⟨false, 0, none,
          "Face++ not configured. Please set up API credentials in Settings."⟩,
        []) := by decide

/-- Helper: the early-exit scan resolves exactly the first accepted
candidate in iteration order. -/
theorem scanCandidates_fst (compare : String → VerifyResult)
    (l : List StaffWithImages) :
    (scanCandidates compare l).1 =
      (l.find? fun s => (candidateDecision compare s).matched).map
        (fun s => (s, candidateDecision compare s)) := by
  induction l with
  | nil => rfl
  | cons s rest ih =>
    simp only [scanCandidates, List.find?_cons]
    cases h : (candidateDecision compare s).matched
    · simp [h, ih]
    · simp [h]

/-- Helper: the consensus engine is invoked exactly for the prefix of
candidates up to and including the first accepted one (the whole list when
none is accepted, since then findIdx is the length). -/
theorem scanCandidates_snd (compare : String → VerifyResult)
    (l : List StaffWithImages) :
    (scanCandidates compare l).2 =
      (l.take ((l.findIdx fun s => (candidateDecision compare s).matched) + 1)).map
        (fun s => s.id) := by
  induction l with
  | nil => rfl
  | cons s rest ih =>
    simp only [scanCandidates, List.findIdx_cons]
    cases h : (candidateDecision compare s).matched
    · simp [h, ih]
    · simp [h]

/-- C3 amended: the active kiosk uses the indexed variant when a collection
handle is configured and otherwise resolves Failure with a "Face++ not
configured" message without consulting any oracle; the pairwise
candidate-iterating decision lives in the alternate kiosk variant, which
never consults the indexed backend. -/
theorem backend_selection_policy (staffList : List StaffMember)
    (swi : List StaffWithImages) (search f g : Unit → SearchResult)
    (compare : String → VerifyResult) (now : ℕ) (log : List CheckInLog)
    (hs : staffList ≠ []) (hswi : swi ≠ []) :
    ((kioskIndexedCapture staffList true search now KioskMode.IDLE log).1 =
        KioskMode.SUCCESS ↔
      (kioskSearchDecision staffList (search ())).isSome = true) ∧
    (kioskIndexedCapture staffList false f now KioskMode.IDLE log =
      (KioskMode.FAILURE,
        some ⟨false, 0, none,
          "Face++ not configured. Please set up API credentials in Settings."⟩,
        log)) ∧
    (kioskIndexedCapture staffList false f now KioskMode.IDLE log =
      kioskIndexedCapture staffList false g now KioskMode.IDLE log) ∧
    ((kioskPairwiseCapture swi compare now KioskMode.IDLE log).1 =
        KioskMode.SUCCESS ↔
      (swi.find? fun s => (candidateDecision compare s).matched).isSome = true) := by
  have hE1 : staffList.isEmpty = false := by
    cases staffList with
    | nil => exact absurd rfl hs
    | cons a l => rfl
  have hE2 : swi.isEmpty = false := by
    cases swi with
    | nil => exact absurd rfl hswi
    | cons a l => rfl
  have hunconfigured : kioskIndexedCapture staffList false f now KioskMode.IDLE log =
      (KioskMode.FAILURE,
        some ⟨false, 0, none,
          "Face++ not configured. Please set up API credentials in Settings."⟩,
        log) := by
    unfold kioskIndexedCapture
    simp [hE1, kioskIndexedFailureMessage]
  have hunconfigured2 : kioskIndexedCapture staffList false g now KioskMode.IDLE log =
      (KioskMode.FAILURE,
        some ⟨false, 0, none,
          "Face++ not configured. Please set up API credentials in Settings."⟩,
        log) := by
    unfold kioskIndexedCapture
    simp [hE1, kioskIndexedFailureMessage]
  refine ⟨?_, hunconfigured, hunconfigured.trans hunconfigured2.symm, ?_⟩
  · unfold kioskIndexedCapture
    cases hd : kioskSearchDecision staffList (search ()) with
    | none => simp [hE1, hd]
    | some fm =>
      obtain ⟨-, staff, hstaff⟩ := kioskSearchDecision_some staffList (search ()) fm hd
      simp [hE1, hd, hstaff]
  · unfold kioskPairwiseCapture
    rw [scanCandidates_fst]
    cases hf : swi.find? fun s => (candidateDecision compare s).matched with
    | none => simp [hE2, hf]
    | some s => simp [hE2, hf]

/-- C3 witness: concrete instances of the unconfigured-failure clause and of
the pairwise variant's candidate-driven decision. -/
theorem backend_selection_policy_witness :
    ([sampleStaff] : List StaffMember) ≠ [] ∧
    ([wStaff1] : List StaffWithImages) ≠ [] ∧
    kioskIndexedCapture [sampleStaff] false (fun _ => sampleSearch) 0 KioskMode.IDLE [] =
      (KioskMode.FAILURE,
        some ⟨false, 0, none,
          "Face++ not configured. Please set up API credentials in Settings."⟩,
        []) ∧
    ((kioskPairwiseCapture [wStaff1] wCompare 0 KioskMode.IDLE []).1 =
        KioskMode.SUCCESS ↔
      (([wStaff1] : List StaffWithImages).find?
          fun s => (candidateDecision wCompare s).matched).isSome = true) := by
  have h := backend_selection_policy [sampleStaff] [wStaff1] (fun _ => sampleSearch)
    (fun _ => sampleSearch) (fun _ => sampleSearch) wCompare 0 []
    (by decide) (by decide)
  exact ⟨by decide, by decide, h.2.1, h.2.2.2⟩


/-- Helper: find? returns the element at the first satisfying index. -/
theorem find?_eq_getElem?_findIdx {α : Type _} (p : α → Bool) (l : List α) :
    l.find? p = l[l.findIdx p]? := by
  induction l with
  | nil => simp
  | cons a t ih =>
    cases h : p a with
    | true => simp [List.find?_cons_of_pos _ h, List.findIdx_cons, h]
    | false => simp [List.find?_cons, List.findIdx_cons, h, ih]

/-- C4: verification early exit — with two candidates at positions i < j that
would both be accepted, the scan resolves Success with the first accepted
candidate (at firstMatchIdx ≤ i), the consensus engine is invoked exactly for
the prefix up to that candidate (so never for position j), and the pairwise
kiosk resolves Success carrying that candidate. -/
theorem verification_early_exit (compare : String → VerifyResult)
    (staffList : List StaffWithImages) (now : ℕ) (log : List CheckInLog)
    (i j : ℕ) (hij : i < j) (hj : j < staffList.length)
    (hi : (candidateDecision compare (staffList.get ⟨i, Nat.lt_trans hij hj⟩)).matched = true)
    (hjm : (candidateDecision compare (staffList.get ⟨j, hj⟩)).matched = true) :
    ∃ hk : firstMatchIdx compare staffList < staffList.length,
      firstMatchIdx compare staffList ≤ i ∧
      (candidateDecision compare
        (staffList.get ⟨firstMatchIdx compare staffList, hk⟩)).matched = true ∧
      (scanCandidates compare staffList).1 =
        some (staffList.get ⟨firstMatchIdx compare staffList, hk⟩,
          candidateDecision compare
            (staffList.get ⟨firstMatchIdx compare staffList, hk⟩)) ∧
      (scanCandidates compare staffList).2 =
        (staffList.take (firstMatchIdx compare staffList + 1)).map (fun s => s.id) ∧
      (scanCandidates compare staffList).2.length ≤ i + 1 ∧
      (kioskPairwiseCapture staffList compare now KioskMode.IDLE log).1 =
        KioskMode.SUCCESS ∧
      (kioskPairwiseCapture staffList compare now KioskMode.IDLE log).2.1 =
        some ⟨true,
          (candidateDecision compare
            (staffList.get ⟨firstMatchIdx compare staffList, hk⟩)).confidence,
          some (staffList.get ⟨firstMatchIdx compare staffList, hk⟩).toStaffMember,
          "consensus explanation"⟩ := by
  have hex : ∃ x ∈ staffList, (fun s => (candidateDecision compare s).matched) x = true :=
    ⟨staffList.get ⟨i, Nat.lt_trans hij hj⟩, List.get_mem _ _ _, hi⟩
  have hk : firstMatchIdx compare staffList < staffList.length :=
    List.findIdx_lt_length_of_exists hex
  have hki : firstMatchIdx compare staffList ≤ i := by
    by_contra hcon
    push_neg at hcon
    have hfalse := List.not_of_lt_findIdx hcon
    have h2 : (candidateDecision compare
        (staffList.get ⟨i, Nat.lt_trans hij hj⟩)).matched = false := by
      simpa using hfalse
    rw [hi] at h2
    exact Bool.noConfusion h2
  have hpk : (candidateDecision compare
      (staffList.get ⟨firstMatchIdx compare staffList, hk⟩)).matched = true := by
    simpa using List.findIdx_getElem (w := hk)
  have hfind : (staffList.find? fun s => (candidateDecision compare s).matched) =
      some (staffList.get ⟨firstMatchIdx compare staffList, hk⟩) := by
    rw [find?_eq_getElem?_findIdx]
    exact List.getElem?_eq_getElem hk
  have hscan1 : (scanCandidates compare staffList).1 =
      some (staffList.get ⟨firstMatchIdx compare staffList, hk⟩,
        candidateDecision compare
          (staffList.get ⟨firstMatchIdx compare staffList, hk⟩)) := by
    rw [scanCandidates_fst, hfind]
    rfl
  have hscan2 : (scanCandidates compare staffList).2 =
      (staffList.take (firstMatchIdx compare staffList + 1)).map (fun s => s.id) :=
    scanCandidates_snd compare staffList
  have hlen : (scanCandidates compare staffList).2.length ≤ i + 1 := by
    rw [hscan2, List.length_map, List.length_take]
    exact le_trans (min_le_left _ _) (Nat.succ_le_succ hki)
  have hne : staffList ≠ [] := by
    intro h0
    rw [h0] at hj
    exact absurd hj (by simp)
  have hE : staffList.isEmpty = false := by
    cases staffList with
    | nil => exact absurd rfl hne
    | cons a l => rfl
  refine ⟨hk, hki, hpk, hscan1, hscan2, hlen, ?_, ?_⟩
  · unfold kioskPairwiseCapture
    simp [hE, hscan1]
  · unfold kioskPairwiseCapture
    simp [hE, hscan1]

/-- C4 witness: two candidates that both match under the oracle — the scan
evaluates only the first and the kiosk resolves Success. -/
theorem verification_early_exit_witness :
    (0 : ℕ) < 1 ∧ (1 : ℕ) < ([wStaff1, wStaff2] : List StaffWithImages).length ∧
    (candidateDecision wCompare wStaff1).matched = true ∧
    (candidateDecision wCompare wStaff2).matched = true ∧
    (scanCandidates wCompare [wStaff1, wStaff2]).2.length ≤ 0 + 1 ∧
    (kioskPairwiseCapture [wStaff1, wStaff2] wCompare 0 KioskMode.IDLE []).1 =
      KioskMode.SUCCESS := by
  have h := verification_early_exit wCompare [wStaff1, wStaff2] 0 [] 0 1
    (by decide) (by decide) (by decide) (by decide)
  obtain ⟨hk, -, -, -, -, hlen, hsucc, -⟩ := h
  exact ⟨by decide, by decide, by decide, by decide, hlen, hsucc⟩


/-- C5: check-in recording invariant — in both kiosk variants a CheckInEvent
is appended iff the resolution is Success, and then exactly one; every other
outcome (re-entrancy guard, no staff enrolled, no candidate matched, oracle
unavailable as an error-valued search result) leaves the log unchanged. -/
theorem checkin_recording_invariant (staffList : List StaffMember)
    (faceppAvailable : Bool) (search : Unit → SearchResult)
    (swi : List StaffWithImages) (compare : String → VerifyResult)
    (now : ℕ) (mode : KioskMode) (log : List CheckInLog) :
    (((kioskIndexedCapture staffList faceppAvailable search now mode log).1 =
          KioskMode.SUCCESS →
        ∃ e : CheckInLog,
          (kioskIndexedCapture staffList faceppAvailable search now mode log).2.2 =
            log ++ [e]) ∧
      ((kioskIndexedCapture staffList faceppAvailable search now mode log).1 ≠
          KioskMode.SUCCESS →
        (kioskIndexedCapture staffList faceppAvailable search now mode log).2.2 =
          log)) ∧
    (((kioskPairwiseCapture swi compare now mode log).1 = KioskMode.SUCCESS →
        ∃ e : CheckInLog,
          (kioskPairwiseCapture swi compare now mode log).2.2 = log ++ [e]) ∧
      ((kioskPairwiseCapture swi compare now mode log).1 ≠ KioskMode.SUCCESS →
        (kioskPairwiseCapture swi compare now mode log).2.2 = log)) := by
  constructor
  · unfold kioskIndexedCapture
    by_cases h1 : mode = KioskMode.SCANNING
    · simp [h1]
    · simp only [if_neg h1]
      by_cases h2 : staffList.isEmpty = true
      · simp [h2]
      · simp only [if_neg h2]
        cases hd : (if faceppAvailable then kioskSearchDecision staffList (search ()) else none) with
        | none => simp [hd]
        | some fm =>
          cases hsm : fm.staffMember with
          | none => simp [hd, hsm]
          | some staff =>
            simp only [hd, hsm]
            exact ⟨fun _ => ⟨_, rfl⟩, fun hne => absurd rfl hne⟩
  · unfold kioskPairwiseCapture
    by_cases h1 : mode = KioskMode.SCANNING
    · simp [h1]
    · simp only [if_neg h1]
      by_cases h2 : swi.isEmpty = true
      · simp [h2]
      · simp only [if_neg h2]
        cases hd : (scanCandidates compare swi).1 with
        | none => simp [hd]
        | some sv =>
          cases sv with
          | mk staff verify =>
            simp only [hd]
            exact ⟨fun _ => ⟨_, rfl⟩, fun hne => absurd rfl hne⟩

/-- C5 witness: a concrete Success resolution appends exactly one event and a
concrete Failure resolution (no staff enrolled) appends none. -/
theorem checkin_recording_invariant_witness :
    (kioskIndexedCapture [sampleStaff] true (fun _ => sampleStrongSearch) 7
        KioskMode.IDLE []).1 = KioskMode.SUCCESS ∧
    (∃ e : CheckInLog,
      (kioskIndexedCapture [sampleStaff] true (fun _ => sampleStrongSearch) 7
          KioskMode.IDLE []).2.2 = [] ++ [e]) ∧
    (kioskPairwiseCapture [] wCompare 7 KioskMode.IDLE []).1 ≠ KioskMode.SUCCESS ∧
    (kioskPairwiseCapture [] wCompare 7 KioskMode.IDLE []).2.2 = [] := by
  have h := checkin_recording_invariant [sampleStaff] true (fun _ => sampleStrongSearch)
    [] wCompare 7 KioskMode.IDLE []
  exact ⟨by decide, h.1.1 (by decide), by decide, h.2.2 (by decide)⟩


end Falgates
